import Mathlib

/-!
Verification of the LINE translation-assistant webhook bot (`app.py`).

The development shallowly embeds the parts of `app.py` that the
specification's claims are about:

* the user-status store (`user_status : OrderedDict`, `set_user_status`,
  `user_status.get`, `user_status.pop`) as an association list whose
  order is insertion/last-set order (front = least recently set);
* the generation adapter `GPT_response` with the upstream Gemini call
  modelled as an oracle `gen : Nat → String → Except String String`
  (call index ↦ prompt ↦ result or raised exception) together with an
  explicit count of upstream calls performed;
* the prompt template loading (`PROMPT_TEMPLATE`), prompt composition,
  and the two prompt builders;
* the text-message handler `handle_message`, with LINE reply delivery
  (`line_bot_api.reply_message`) modelled as a fallible oracle
  `send : String → Except String Unit`;
* the webhook endpoint `callback` together with the SDK's
  `handler.handle` dispatch and the `MemberJoinedEvent` handler
  `welcome`.

Python's `str.strip()` is embedded as `pyStrip`, dropping whitespace
characters from both ends.
-/

namespace LinebotApp

/-- Whitespace test matching Python's `str.strip()` default set
(`str.isspace` characters; the ASCII ones plus the common Unicode
space separators). -/
def isPySpace (c : Char) : Bool :=
  c = ' ' || c = '\t' || c = '\n' || c = '\r' || c = '\x0b' || c = '\x0c' ||
  c = '\x1c' || c = '\x1d' || c = '\x1e' || c = '\x1f' || c = '\x85' ||
  c = ' ' || c = ' ' || c = ' ' || c = ' ' || c = ' ' ||
  c = ' ' || c = ' ' || c = ' ' || c = ' ' || c = ' ' ||
  c = ' ' || c = ' ' || c = ' ' || c = ' ' || c = ' ' ||
  c = ' ' || c = ' ' || c = '　'

/-- Strip `p`-satisfying characters from both ends of a list. -/
def stripL (p : Char → Bool) (l : List Char) : List Char :=
  ((l.dropWhile p).reverse.dropWhile p).reverse

/-- Embedding of Python `s.strip()`. -/
def pyStrip (s : String) : String :=
  ⟨stripL isPySpace s.data⟩

/-- `MAX_USERS = 1000` from `app.py`. -/
def MAX_USERS : Nat := 1000

/-- The keys of an association list, in order. -/
def keysOf {α β : Type} (s : List (α × β)) : List α := s.map Prod.fst

/-- Core of `set_user_status` (and of its ghost-timestamped variant):
`OrderedDict` semantics of
`if uid in d: d.move_to_end(uid)`, `d[uid] = v`,
`if len(d) > MAX_USERS: d.popitem(last=False)`.
Moving to the end and then assigning equals removing the old binding and
appending the new one; `popitem(last=False)` removes the front (oldest)
entry. -/
def setKV {α β : Type} [DecidableEq α] (s : List (α × β)) (k : α) (v : β) :
    List (α × β) :=
  let s1 := (s.filter fun e => decide (e.1 ≠ k)) ++ [(k, v)]
  if MAX_USERS < s1.length then s1.tail else s1

/-- Embedding of `user_status.get(uid)`. -/
def getKV {α β : Type} [DecidableEq α] (s : List (α × β)) (k : α) : Option β :=
  (s.find? fun e => decide (e.1 = k)).map Prod.snd

/-- Embedding of `user_status.pop(uid, None)` (the returned value is unused
in `app.py`, so only the resulting store is modelled). -/
def popKV {α β : Type} [DecidableEq α] (s : List (α × β)) (k : α) :
    List (α × β) :=
  s.filter fun e => decide (e.1 ≠ k)

/-- Embedding of `set_user_status(uid, status)` acting on the
`user_status` store. The user-id type is a parameter because Python is
dynamically typed; `app.py` uses LINE user-id strings. -/
def set_user_status {α : Type} [DecidableEq α] (s : List (α × String))
    (uid : α) (status : String) : List (α × String) :=
  setKV s uid status

/-- Embedding of the module-level template load:
`PROMPT_TEMPLATE = open("prompt_config.md").read().strip()` with
`except Exception: PROMPT_TEMPLATE = ""`. The file read is modelled as
an `Except` value (contents, or the raised exception's message). -/
def loadPromptTemplate (readResult : Except String String) : String :=
  match readResult with
  | Except.ok contents => pyStrip contents
  | Except.error _ => ""

/-- The prompt actually sent upstream by `GPT_response`:
`f"{PROMPT_TEMPLATE}\n\n{text.strip()}"`. -/
def composePrompt (template text : String) : String :=
  template ++ "\n\n" ++ pyStrip text

/-- The fixed user-facing fallback string returned by `GPT_response`
when the upstream call raises. -/
def fallbackText : String :=
  "⚠️ AI 回應發生錯誤，請稍後再試或檢查 API 金鑰。"

/-- Embedding of `GPT_response(text)`. The upstream
`gemini_model.generate_content(...)` call (including the `.text`
accessor, which can also raise) is the oracle `gen`, indexed by how many
upstream calls have been made so far, so that distinct calls may behave
differently. `calls` counts upstream calls made before this invocation;
the returned `Nat` counts them after. On success the reply is
`response.text.strip()`; on any exception the fixed `fallbackText` is
returned. Exactly one upstream call is made either way: there is no
retry and no cache in `app.py`. -/
def GPT_response (gen : Nat → String → Except String String)
    (template text : String) (calls : Nat) : String × Nat :=
  match gen calls (composePrompt template text) with
  | Except.ok r => (pyStrip r, calls + 1)
  | Except.error _ => (fallbackText, calls + 1)

/-- The command and reply strings of `handle_message`, verbatim. -/
def activateCmd : String := "啟動翻譯小助理"

/-- Deactivate command text. -/
def deactivateCmd : String := "結束翻譯小助理"

/-- Fixed activation acknowledgment. -/
def activateReply : String := "已啟動翻譯小助理！請輸入想要翻譯的內容。"

/-- Fixed deactivation acknowledgment. -/
def deactivateReply : String := "已退出翻譯小助理功能。"

/-- Fixed reply when deactivating while not in translation mode. -/
def notInModeReply : String := "你目前不在翻譯小助理模式。"

/-- Fixed generic reply sent by the `except` block of `handle_message`. -/
def genericErrorReply : String :=
  "AI 回應發生錯誤，請檢查伺服器 Log 或 API 金鑰。"

/-- The translation prompt built by `handle_translation_mode(msg)`. -/
def translationPrompt (msg : String) : String :=
  "請對以下內容做詳細處理：\n\n1. 中英文對照翻譯\n2. 用字與文法優化建議\n\n原文：" ++
  msg ++ "\n\n請限制回覆在 300 字內，並以條列方式回答，格式清楚易讀。"

/-- The general-purpose prompt built in the `else` branch of
`handle_message`. -/
def generalPrompt (msg : String) : String :=
  "請針對以下內容簡短回覆，限 300 字內：\n\n使用者輸入：" ++ msg

/-- Embedding of `handle_translation_mode(msg)`. -/
def handle_translation_mode (gen : Nat → String → Except String String)
    (template msg : String) (calls : Nat) : String × Nat :=
  GPT_response gen template (translationPrompt msg) calls

/-- The `try`-body of `handle_message` up to (not including) the reply
delivery: chooses the reply text and performs the store/oracle effects.
Returns (reply text, new store, upstream-call count after). Mirrors the
four-branch `if/elif/elif/else` on the stripped message. None of these
operations can raise in `app.py` (`GPT_response` has its own catch-all
and the store operations are total), so this part is a pure function. -/
def dispatch {α : Type} [DecidableEq α]
    (gen : Nat → String → Except String String) (template : String)
    (s : List (α × String)) (uid : α) (msg : String) (calls : Nat) :
    String × List (α × String) × Nat :=
  if msg = activateCmd then
    (activateReply, set_user_status s uid "translating", calls)
  else if msg = deactivateCmd then
    if getKV s uid = some "translating" then
      (deactivateReply, popKV s uid, calls)
    else
      (notInModeReply, s, calls)
  else if getKV s uid = some "translating" then
    let r := handle_translation_mode gen template msg calls
    (r.1, s, r.2)
  else
    let r := GPT_response gen template (generalPrompt msg) calls
    (r.1, s, r.2)

/-- Observable outcome of one `handle_message` invocation:
the resulting `user_status` store, the upstream-call count, the list of
texts passed to `line_bot_api.reply_message` (in order), the exception
escaping the handler (if any), and whether the `except` block ran
(`traceback.format_exc()` printed). -/
structure HandlerOutcome (α : Type) where
  store : List (α × String)
  calls : Nat
  attempts : List String
  raised : Option String
  logged : Bool
deriving DecidableEq

/-- Embedding of `handle_message(event)`. `text` is
`event.message.text`; the handler strips it first (`msg`). The only
operation inside the `try` that can raise in `app.py` is the
`line_bot_api.reply_message` network call, modelled by the oracle
`send`; when the first delivery raises, the `except` block logs the
trace and tries to deliver `genericErrorReply` — itself a
`reply_message` call, whose failure escapes the handler. -/
def handle_message {α : Type} [DecidableEq α]
    (gen : Nat → String → Except String String)
    (send : String → Except String Unit) (template : String)
    (s : List (α × String)) (uid : α) (text : String) (calls : Nat) :
    HandlerOutcome α :=
  let msg := pyStrip text
  let step := dispatch gen template s uid msg calls
  match send step.1 with
  | Except.ok _ =>
    ⟨step.2.1, step.2.2, [step.1], none, false⟩
  | Except.error _ =>
    match send genericErrorReply with
    | Except.ok _ => ⟨step.2.1, step.2.2, [step.1, genericErrorReply], none, true⟩
    | Except.error e => ⟨step.2.1, step.2.2, [step.1, genericErrorReply], some e, true⟩

/-- The exceptions that can escape `handler.handle(body, signature)`:
the SDK's `InvalidSignatureError`, or an exception raised by one of the
registered event handlers (which the SDK does not catch). -/
inductive HandleError where
  | invalidSignature : HandleError
  | other : String → HandleError
deriving DecidableEq

/-- The SDK runs the registered handler for each event in order; the
first handler exception aborts the loop and propagates. Each event's
handler outcome is given as an `Except` value. -/
def runHandlers : List (Except String Unit) → Except String Unit
  | [] => Except.ok ()
  | Except.ok _ :: rest => runHandlers rest
  | Except.error e :: _ => Except.error e

/-- Embedding of `handler.handle(body, signature)`: signature
verification first (raising `InvalidSignatureError` on mismatch), then
event dispatch. -/
def handler_handle (sigValid : Bool)
    (handlers : List (Except String Unit)) : Except HandleError Unit :=
  if sigValid then
    match runHandlers handlers with
    | Except.ok _ => Except.ok ()
    | Except.error e => Except.error (HandleError.other e)
  else
    Except.error HandleError.invalidSignature

/-- What the `/callback` route produces: an HTTP response, or an
exception escaping the view function (which Flask turns into a 500
error, not a 200). -/
inductive CallbackResult where
  | response : Nat → String → CallbackResult
  | uncaught : String → CallbackResult
deriving DecidableEq

/-- Embedding of the `/callback` view: `handler.handle` inside a `try`
whose only `except` clause is `InvalidSignatureError → abort(400)`;
on success it returns `'OK'` (HTTP 200). Any other exception escapes. -/
def callback (sigValid : Bool)
    (handlers : List (Except String Unit)) : CallbackResult :=
  match handler_handle sigValid handlers with
  | Except.ok _ => CallbackResult.response 200 "OK"
  | Except.error HandleError.invalidSignature => CallbackResult.response 400 ""
  | Except.error (HandleError.other e) => CallbackResult.uncaught e

/-- Embedding of the `MemberJoinedEvent` handler `welcome(event)`: the
`line_bot_api.get_group_member_profile` call is modelled as an `Except`
(profile display name, or the raised exception); the reply delivery as
the `send` oracle. `welcome` has no `try`/`except`, so either failure
escapes. -/
def welcome (profileFetch : Except String String)
    (send : String → Except String Unit) : Except String Unit :=
  match profileFetch with
  | Except.error e => Except.error e
  | Except.ok name =>
    send (name ++ " 歡迎加入！目前作者正在白金打工！請多多指教！")

/-- Ghost-instrumented variant of `set_user_status`: each entry
additionally carries the (logical) time of its last set, so that
"least-recently-set" is expressible. The store part of an entry
`(uid, status, t)` is `(uid, status)`; erasing the timestamps recovers
`set_user_status` exactly (`proj_setT` below). -/
def setT {α : Type} [DecidableEq α] (s : List (α × String × Nat))
    (uid : α) (status : String) (t : Nat) : List (α × String × Nat) :=
  setKV s uid (status, t)

/-- Run a sequence of `set_user_status` calls on the instrumented store,
stamping each call with its position. -/
def runTAux {α : Type} [DecidableEq α] :
    List (α × String) → Nat → List (α × String × Nat) →
    List (α × String × Nat)
  | [], _, s => s
  | op :: rest, t, s => runTAux rest (t + 1) (setT s op.1 op.2 t)

/-- Run a sequence of `set_user_status` calls from the empty store. -/
def runT {α : Type} [DecidableEq α] (ops : List (α × String)) :
    List (α × String × Nat) :=
  runTAux ops 0 []

/-- Drop the ghost timestamp of an instrumented entry. -/
def projEntry {α : Type} (e : α × String × Nat) : α × String :=
  (e.1, e.2.1)

/-- Invariant of the instrumented store at time `now`: keys are
distinct, capacity is respected, the entries are ordered by strictly
increasing last-set time (front = least recently set), and all
timestamps lie in the past. -/
def InvT {α : Type} (s : List (α × String × Nat)) (now : Nat) : Prop :=
  (keysOf s).Nodup ∧ s.length ≤ MAX_USERS ∧
  s.Pairwise (fun a b => a.2.2 < b.2.2) ∧ ∀ e ∈ s, e.2.2 < now

section ListHelpers

variable {γ δ : Type}

/-- `filter` and `map` commute when the predicate factors through the map. -/
theorem filter_map_comm (f : γ → δ) (p : δ → Bool) :
    ∀ l : List γ, (l.map f).filter p = (l.filter fun a => p (f a)).map f := by
  intro l
  induction l with
  | nil => rfl
  | cons a l ih =>
    by_cases h : p (f a) <;> simp [List.filter_cons, h, ih]

/-- `tail` and `map` commute. -/
theorem tail_map_comm (f : γ → δ) : ∀ l : List γ, (l.map f).tail = l.tail.map f := by
  intro l
  cases l <;> rfl

/-- `find?` skips a block of elements on which the predicate is false. -/
theorem find?_append_of_forall_false (p : γ → Bool) :
    ∀ l1 l2 : List γ, (∀ a ∈ l1, p a = false) →
      (l1 ++ l2).find? p = l2.find? p := by
  intro l1 l2 h
  induction l1 with
  | nil => rfl
  | cons a l ih =>
    have ha : p a = false := h a (List.mem_cons_self a l)
    simp only [List.cons_append, List.find?_cons, ha]
    exact ih fun b hb => h b (List.mem_cons_of_mem a hb)

/-- The tail of an append onto a nonempty list. -/
theorem tail_append_of_ne_nil : ∀ (l1 l2 : List γ), l1 ≠ [] →
    (l1 ++ l2).tail = l1.tail ++ l2 := by
  intro l1 l2 h
  cases l1 with
  | nil => exact absurd rfl h
  | cons a l => rfl

/-- `dropWhile` is idempotent. -/
theorem dropWhile_idem (p : γ → Bool) :
    ∀ l : List γ, (l.dropWhile p).dropWhile p = l.dropWhile p := by
  intro l
  induction l with
  | nil => rfl
  | cons a l ih =>
    by_cases h : p a <;> simp [List.dropWhile_cons, h, ih]

/-- `dropWhile` over an append. -/
theorem dropWhile_append_eq (p : γ → Bool) :
    ∀ l1 l2 : List γ, (l1 ++ l2).dropWhile p =
      if (l1.dropWhile p).isEmpty then l2.dropWhile p
      else l1.dropWhile p ++ l2 := by
  intro l1 l2
  induction l1 with
  | nil => simp
  | cons a l ih =>
    by_cases h : p a <;> simp [List.dropWhile_cons, h, ih]

/-- `dropWhile` never lengthens a list. -/
theorem length_dropWhile_le' (p : γ → Bool) :
    ∀ l : List γ, (l.dropWhile p).length ≤ l.length := by
  intro l
  induction l with
  | nil => exact Nat.le_refl _
  | cons a l ih =>
    by_cases h : p a
    · rw [List.dropWhile_cons, if_pos h]
      exact Nat.le_succ_of_le ih
    · rw [List.dropWhile_cons, if_neg h]

end ListHelpers

/-- `stripL` is idempotent. -/
theorem stripL_idem (p : Char → Bool) (l : List Char) :
    stripL p (stripL p l) = stripL p l := by
  unfold stripL
  set A := l.dropWhile p with hA
  have hdropA : A.dropWhile p = A := by
    rw [hA]; exact dropWhile_idem p l
  set B := A.reverse.dropWhile p with hB
  have step1 : B.reverse.dropWhile p = B.reverse := by
    cases hAcase : A with
    | nil =>
      have : B = [] := by rw [hB, hAcase]; rfl
      rw [this]; rfl
    | cons a A' =>
      have hpa : p a = false := by
        have := hdropA
        rw [hAcase] at this
        by_cases h : p a
        · rw [List.dropWhile_cons, if_pos h] at this
          have hlen := congrArg List.length this
          have hle := length_dropWhile_le' p A'
          simp at hlen
          omega
        · exact Bool.of_not_eq_true h
      have hBlast : ∃ C, B = C ++ [a] := by
        rw [hB, hAcase]
        simp only [List.reverse_cons]
        rw [dropWhile_append_eq]
        by_cases h : (A'.reverse.dropWhile p).isEmpty
        · rw [if_pos h]
          refine ⟨[], ?_⟩
          simp [List.dropWhile_cons, hpa]
        · rw [if_neg h]
          exact ⟨A'.reverse.dropWhile p, rfl⟩
      obtain ⟨C, hC⟩ := hBlast
      rw [hC]
      simp only [List.reverse_append, List.reverse_cons, List.reverse_nil,
        List.nil_append, List.cons_append]
      rw [List.dropWhile_cons, if_neg (by simp [hpa])]
  have step2 : B.reverse.reverse.dropWhile p = B := by
    rw [List.reverse_reverse, hB]
    exact dropWhile_idem p A.reverse
  rw [step1, step2]

/-- `pyStrip` is idempotent, matching Python's `strip`. -/
theorem pyStrip_idem (s : String) : pyStrip (pyStrip s) = pyStrip s := by
  unfold pyStrip
  exact congrArg String.mk (stripL_idem isPySpace s.data)

section StoreLemmas

variable {α β : Type} [DecidableEq α]

/-- Everything surviving the `≠ k` filter has key different from `k`. -/
theorem mem_filter_ne {s : List (α × β)} {k : α} {e : α × β}
    (h : e ∈ s.filter fun e => decide (e.1 ≠ k)) : e.1 ≠ k := by
  have := List.of_mem_filter h
  exact of_decide_eq_true this

/-- `k` is not among the keys of the `≠ k` filtered store. -/
theorem not_mem_keys_filter (s : List (α × β)) (k : α) :
    k ∉ keysOf (s.filter fun e => decide (e.1 ≠ k)) := by
  intro hmem
  obtain ⟨e, he, hek⟩ := List.mem_map.mp hmem
  exact mem_filter_ne he hek

/-- `setKV` preserves distinctness of keys. -/
theorem nodup_keys_setKV (s : List (α × β)) (k : α) (v : β)
    (h : (keysOf s).Nodup) : (keysOf (setKV s k v)).Nodup := by
  have hfil : ((s.filter fun e => decide (e.1 ≠ k)).map Prod.fst).Nodup :=
    h.sublist ((List.filter_sublist s).map Prod.fst)
  have happ : (keysOf ((s.filter fun e => decide (e.1 ≠ k)) ++ [(k, v)])).Nodup := by
    unfold keysOf
    rw [List.map_append]
    rw [List.nodup_append]
    refine ⟨hfil, List.nodup_singleton k, ?_⟩
    intro a ha hb
    simp only [List.map_cons, List.map_nil, List.mem_singleton] at hb
    rw [hb] at ha
    exact not_mem_keys_filter s k ha
  unfold setKV
  by_cases hlen : MAX_USERS < ((s.filter fun e => decide (e.1 ≠ k)) ++ [(k, v)]).length
  · rw [if_pos hlen]
    have hsub : (keysOf (((s.filter fun e => decide (e.1 ≠ k)) ++ [(k, v)]).tail)).Sublist
        (keysOf ((s.filter fun e => decide (e.1 ≠ k)) ++ [(k, v)])) :=
      (List.tail_sublist _).map Prod.fst
    exact happ.sublist hsub
  · rw [if_neg hlen]
    exact happ

/-- `setKV` keeps the store within the capacity bound. -/
theorem length_setKV_le (s : List (α × β)) (k : α) (v : β)
    (h : s.length ≤ MAX_USERS) : (setKV s k v).length ≤ MAX_USERS := by
  unfold setKV
  have hfl : (s.filter fun e => decide (e.1 ≠ k)).length ≤ s.length :=
    (List.filter_sublist s).length_le
  by_cases hlen : MAX_USERS < ((s.filter fun e => decide (e.1 ≠ k)) ++ [(k, v)]).length
  · rw [if_pos hlen]
    rw [List.length_tail, List.length_append]
    simp only [List.length_cons, List.length_nil]
    omega
  · rw [if_neg hlen]
    omega

/-- After `setKV s k v` the binding of `k` is `v`. -/
theorem getKV_setKV_self (s : List (α × β)) (k : α) (v : β) :
    getKV (setKV s k v) k = some v := by
  set l1 := s.filter fun e => decide (e.1 ≠ k) with hl1
  have hfalse : ∀ e ∈ l1, (fun e : α × β => decide (e.1 = k)) e = false := by
    intro e he
    exact decide_eq_false (mem_filter_ne he)
  have hone : (l1 ++ [(k, v)]).find? (fun e => decide (e.1 = k)) = some (k, v) := by
    rw [find?_append_of_forall_false _ l1 [(k, v)] hfalse]
    simp [List.find?_cons]
  unfold setKV getKV
  rw [← hl1]
  by_cases hlen : MAX_USERS < (l1 ++ [(k, v)]).length
  · rw [if_pos hlen]
    have hne : l1 ≠ [] := by
      intro hnil
      rw [hnil] at hlen
      simp [MAX_USERS] at hlen
    rw [tail_append_of_ne_nil l1 [(k, v)] hne]
    have hfalse' : ∀ e ∈ l1.tail, (fun e : α × β => decide (e.1 = k)) e = false :=
      fun e he => hfalse e ((List.tail_sublist l1).subset he)
    rw [find?_append_of_forall_false _ l1.tail [(k, v)] hfalse']
    simp [List.find?_cons]
  · rw [if_neg hlen]
    rw [hone]
    rfl

/-- After `popKV s k` there is no binding of `k`. -/
theorem getKV_popKV_self (s : List (α × β)) (k : α) :
    getKV (popKV s k) k = none := by
  unfold getKV popKV
  have hfalse : ∀ e ∈ s.filter fun e => decide (e.1 ≠ k),
      (fun e : α × β => decide (e.1 = k)) e = false :=
    fun e he => decide_eq_false (mem_filter_ne he)
  have := find?_append_of_forall_false (fun e : α × β => decide (e.1 = k))
    (s.filter fun e => decide (e.1 ≠ k)) [] hfalse
  rw [List.append_nil] at this
  rw [this]
  rfl

/-- With distinct keys, at most one stored entry has key `k`. -/
theorem filter_key_length_le_one (s : List (α × β)) (k : α)
    (h : (keysOf s).Nodup) :
    (s.filter fun e => decide (e.1 = k)).length ≤ 1 := by
  induction s with
  | nil => simp
  | cons e rest ih =>
    have hk : (keysOf rest).Nodup := by
      unfold keysOf at h ⊢
      exact (List.nodup_cons.mp h).2
    by_cases hek : e.1 = k
    · have hnot : e.1 ∉ keysOf rest := by
        unfold keysOf at h
        exact (List.nodup_cons.mp h).1
      have hrest : (rest.filter fun e => decide (e.1 = k)).length = 0 := by
        rw [List.length_eq_zero]
        rw [List.filter_eq_nil_iff]
        intro a ha
        intro hcontra
        have : a.1 = k := of_decide_eq_true hcontra
        exact hnot (by rw [hek]; rw [← this]; exact List.mem_map_of_mem Prod.fst ha)
      rw [List.filter_cons, if_pos (decide_eq_true hek)]
      simp [hrest]
    · rw [List.filter_cons, if_neg (by simp [hek])]
      exact ih hk

/-- Erasing the ghost timestamps commutes with the store operation:
`setT` refines `set_user_status`. -/
theorem proj_setT (s : List (α × String × Nat)) (uid : α) (status : String)
    (t : Nat) :
    (setT s uid status t).map projEntry =
      set_user_status (s.map projEntry) uid status := by
  have hfil : ((s.map projEntry).filter fun e => decide (e.1 ≠ uid)) =
      (s.filter fun e => decide (e.1 ≠ uid)).map projEntry := by
    have := filter_map_comm projEntry (fun e => decide (e.1 ≠ uid)) s
    exact this
  simp only [setT, set_user_status, setKV, hfil]
  set l := s.filter fun e => decide (e.1 ≠ uid) with hl
  have h2 : l.map projEntry ++ [(uid, status)] =
      (l ++ [(uid, status, t)]).map projEntry := by
    rw [List.map_append]
    rfl
  rw [h2, List.length_map]
  by_cases hc : MAX_USERS < (l ++ [(uid, status, t)]).length
  · rw [if_pos hc, if_pos hc, tail_map_comm]
  · rw [if_neg hc, if_neg hc]

end StoreLemmas

section InvariantLemmas

variable {α : Type} [DecidableEq α]

/-- One `setT` step preserves the instrumented-store invariant. -/
theorem InvT_setT (s : List (α × String × Nat)) (uid : α) (status : String)
    (t : Nat) (h : InvT s t) : InvT (setT s uid status t) (t + 1) := by
  obtain ⟨hnodup, hlen, hpair, hbound⟩ := h
  have hmem_s1 : ∀ e ∈ (s.filter fun e => decide (e.1 ≠ uid)) ++
      [(uid, status, t)], e ∈ s ∨ e = (uid, status, t) := by
    intro e he
    rcases List.mem_append.mp he with h1 | h2
    · exact Or.inl ((List.filter_sublist s).subset h1)
    · exact Or.inr (List.mem_singleton.mp h2)
  have hpair1 : ((s.filter fun e => decide (e.1 ≠ uid)) ++
      [(uid, status, t)]).Pairwise (fun a b => a.2.2 < b.2.2) := by
    rw [List.pairwise_append]
    refine ⟨hpair.sublist (List.filter_sublist s), List.pairwise_singleton _ _, ?_⟩
    intro a ha b hb
    rw [List.mem_singleton] at hb
    subst hb
    exact hbound a ((List.filter_sublist s).subset ha)
  have hbound1 : ∀ e ∈ (s.filter fun e => decide (e.1 ≠ uid)) ++
      [(uid, status, t)], e.2.2 < t + 1 := by
    intro e he
    rcases hmem_s1 e he with h1 | h2
    · exact Nat.lt_succ_of_lt (hbound e h1)
    · rw [h2]
      exact Nat.lt_succ_self t
  refine ⟨nodup_keys_setKV s uid (status, t) hnodup,
    length_setKV_le s uid (status, t) hlen, ?_, ?_⟩
  · unfold setT setKV
    by_cases hc : MAX_USERS < ((s.filter fun e => decide (e.1 ≠ uid)) ++
        [(uid, status, t)]).length
    · rw [if_pos hc]
      exact hpair1.sublist (List.tail_sublist _)
    · rw [if_neg hc]
      exact hpair1
  · intro e he
    have he1 : e ∈ (s.filter fun e => decide (e.1 ≠ uid)) ++ [(uid, status, t)] := by
      unfold setT setKV at he
      by_cases hc : MAX_USERS < ((s.filter fun e => decide (e.1 ≠ uid)) ++
          [(uid, status, t)]).length
      · rw [if_pos hc] at he
        exact (List.tail_sublist _).subset he
      · rw [if_neg hc] at he
        exact he
    exact hbound1 e he1

/-- Running a suffix of the operation sequence preserves the invariant. -/
theorem InvT_runTAux (ops : List (α × String)) :
    ∀ (t : Nat) (s : List (α × String × Nat)), InvT s t →
      InvT (runTAux ops t s) (t + ops.length) := by
  induction ops with
  | nil =>
    intro t s h
    simpa using h
  | cons op rest ih =>
    intro t s h
    have hstep := InvT_setT s op.1 op.2 t h
    have := ih (t + 1) (setT s op.1 op.2 t) hstep
    simpa [runTAux, Nat.add_comm, Nat.add_assoc, Nat.add_left_comm] using this

/-- Any sequence of `set_user_status` calls from the empty store yields
a store satisfying the invariant. -/
theorem InvT_runT (ops : List (α × String)) : InvT (runT ops) ops.length := by
  have h0 : InvT ([] : List (α × String × Nat)) 0 := by
    refine ⟨List.nodup_nil, ?_, List.Pairwise.nil, ?_⟩
    · simp [MAX_USERS]
    · intro e he
      exact absurd he (List.not_mem_nil e)
  have := InvT_runTAux ops 0 [] h0
  simpa [runT] using this

end InvariantLemmas

section EvictionLemmas

variable {α : Type} [DecidableEq α]

/-- Filtering out an actually-present element strictly shrinks a list. -/
theorem length_filter_lt {γ : Type} (p : γ → Bool) (s : List γ) (e : γ)
    (he : e ∈ s) (hp : p e = false) : (s.filter p).length < s.length := by
  induction s with
  | nil => exact absurd he (List.not_mem_nil e)
  | cons a rest ih =>
    rcases List.mem_cons.mp he with rfl | hmem
    · rw [List.filter_cons, if_neg (by simp [hp])]
      have := (List.filter_sublist (p := p) rest).length_le
      simp only [List.length_cons]
      omega
    · by_cases hpa : p a
      · rw [List.filter_cons, if_pos (by simp [hpa])]
        simp only [List.length_cons]
        exact Nat.succ_lt_succ (ih hmem)
      · rw [List.filter_cons, if_neg (by simp [hpa])]
        have := ih hmem
        simp only [List.length_cons]
        omega

/-- When the capacity is already reached and the key is fresh,
`setT` evicts exactly the front entry — the one whose last-set time is
minimal — and appends the new entry at the back. -/
theorem setT_evicts (s : List (α × String × Nat)) (uid : α)
    (status : String) (t : Nat) (h : InvT s t)
    (hfull : s.length = MAX_USERS) (hnew : uid ∉ keysOf s) :
    ∃ hd tl, s = hd :: tl ∧ (∀ e ∈ s, hd.2.2 ≤ e.2.2) ∧
      setT s uid status t = tl ++ [(uid, status, t)] := by
  obtain ⟨hnodup, hlen, hpair, hbound⟩ := h
  have hfilter : (s.filter fun e => decide (e.1 ≠ uid)) = s := by
    rw [List.filter_eq_self]
    intro e he
    refine decide_eq_true ?_
    intro hek
    exact hnew (by rw [← hek]; exact List.mem_map_of_mem Prod.fst he)
  obtain ⟨hd, tl, rfl⟩ : ∃ hd tl, s = hd :: tl := by
    cases s with
    | nil => simp [MAX_USERS] at hfull
    | cons a b => exact ⟨a, b, rfl⟩
  refine ⟨hd, tl, rfl, ?_, ?_⟩
  · intro e he
    rcases List.mem_cons.mp he with rfl | hmem
    · exact Nat.le_refl _
    · exact Nat.le_of_lt ((List.pairwise_cons.mp hpair).1 e hmem)
  · simp only [setT, setKV]
    rw [hfilter]
    have hgt : MAX_USERS < ((hd :: tl) ++ [(uid, status, t)]).length := by
      rw [List.length_append, hfull]
      simp
    rw [if_pos hgt]
    rw [tail_append_of_ne_nil (hd :: tl) [(uid, status, t)]
      (List.cons_ne_nil hd tl)]
    rfl

/-- When the key is already present or the store is below capacity,
`setT` removes nothing except the key's own previous binding. -/
theorem setT_no_evict (s : List (α × String × Nat)) (uid : α)
    (status : String) (t : Nat) (h : InvT s t)
    (hcase : uid ∈ keysOf s ∨ s.length < MAX_USERS) :
    setT s uid status t =
      (s.filter fun e => decide (e.1 ≠ uid)) ++ [(uid, status, t)] := by
  obtain ⟨hnodup, hlen, hpair, hbound⟩ := h
  have hsmall : ¬ MAX_USERS <
      ((s.filter fun e => decide (e.1 ≠ uid)) ++ [(uid, status, t)]).length := by
    rw [List.length_append]
    simp only [List.length_cons, List.length_nil]
    rcases hcase with hin | hlt
    · obtain ⟨e, he, hek⟩ := List.mem_map.mp hin
      have : (s.filter fun e => decide (e.1 ≠ uid)).length < s.length :=
        length_filter_lt _ s e he (by simp [hek])
      omega
    · have := (List.filter_sublist
        (p := fun e : α × String × Nat => decide (e.1 ≠ uid)) s).length_le
      omega
  simp only [setT, setKV]
  rw [if_neg hsmall]

end EvictionLemmas

section HandlerLemmas

variable {α : Type} [DecidableEq α]

/-- `GPT_response` performs exactly one upstream call, whatever the
outcome. -/
theorem GPT_response_calls (gen : Nat → String → Except String String)
    (template text : String) (calls : Nat) :
    (GPT_response gen template text calls).2 = calls + 1 := by
  unfold GPT_response
  cases gen calls (composePrompt template text) <;> rfl

/-- The outcome fields of `handle_message` in terms of the pure
dispatch: the store and call-count effects happen before any delivery
attempt, and the first delivery attempt is the dispatched reply text. -/
theorem handle_message_parts (gen : Nat → String → Except String String)
    (send : String → Except String Unit) (template : String)
    (s : List (α × String)) (uid : α) (text : String) (calls : Nat) :
    (handle_message gen send template s uid text calls).store =
      (dispatch gen template s uid (pyStrip text) calls).2.1 ∧
    (handle_message gen send template s uid text calls).calls =
      (dispatch gen template s uid (pyStrip text) calls).2.2 ∧
    (handle_message gen send template s uid text calls).attempts.head? =
      some (dispatch gen template s uid (pyStrip text) calls).1 := by
  simp only [handle_message]
  cases send (dispatch gen template s uid (pyStrip text) calls).1 with
  | ok u => simp
  | error e =>
    cases send genericErrorReply with
    | ok u => simp
    | error e2 => simp

/-- Dispatch on the activate command. -/
theorem dispatch_activate (gen : Nat → String → Except String String)
    (template : String) (s : List (α × String)) (uid : α) (msg : String)
    (calls : Nat) (h : msg = activateCmd) :
    dispatch gen template s uid msg calls =
      (activateReply, set_user_status s uid "translating", calls) := by
  simp [dispatch, h]

/-- Dispatch on the deactivate command while translating. -/
theorem dispatch_deactivate_on (gen : Nat → String → Except String String)
    (template : String) (s : List (α × String)) (uid : α) (msg : String)
    (calls : Nat) (h : msg = deactivateCmd)
    (hmode : getKV s uid = some "translating") :
    dispatch gen template s uid msg calls =
      (deactivateReply, popKV s uid, calls) := by
  have hne : deactivateCmd ≠ activateCmd := by decide
  simp [dispatch, h, hne, hmode]

/-- Dispatch on the deactivate command while not translating. -/
theorem dispatch_deactivate_off (gen : Nat → String → Except String String)
    (template : String) (s : List (α × String)) (uid : α) (msg : String)
    (calls : Nat) (h : msg = deactivateCmd)
    (hmode : getKV s uid ≠ some "translating") :
    dispatch gen template s uid msg calls = (notInModeReply, s, calls) := by
  have hne : deactivateCmd ≠ activateCmd := by decide
  simp [dispatch, h, hne, hmode]

/-- Dispatch of a non-command message while translating. -/
theorem dispatch_translating (gen : Nat → String → Except String String)
    (template : String) (s : List (α × String)) (uid : α) (msg : String)
    (calls : Nat) (h1 : msg ≠ activateCmd) (h2 : msg ≠ deactivateCmd)
    (hmode : getKV s uid = some "translating") :
    dispatch gen template s uid msg calls =
      ((handle_translation_mode gen template msg calls).1, s,
        (handle_translation_mode gen template msg calls).2) := by
  simp [dispatch, h1, h2, hmode]

/-- Dispatch of a non-command message while idle. -/
theorem dispatch_general (gen : Nat → String → Except String String)
    (template : String) (s : List (α × String)) (uid : α) (msg : String)
    (calls : Nat) (h1 : msg ≠ activateCmd) (h2 : msg ≠ deactivateCmd)
    (hmode : getKV s uid ≠ some "translating") :
    dispatch gen template s uid msg calls =
      ((GPT_response gen template (generalPrompt msg) calls).1, s,
        (GPT_response gen template (generalPrompt msg) calls).2) := by
  simp [dispatch, h1, h2, hmode]

end HandlerLemmas

/-- Invariant of the plain `user_status` store: distinct keys (at most
one mode value per user identifier) and at most `MAX_USERS` entries. -/
def StoreInv {α : Type} (s : List (α × String)) : Prop :=
  (keysOf s).Nodup ∧ s.length ≤ MAX_USERS

/-- A full store of 1000 users, user `i` last set at time `i`;
used to exercise the eviction path concretely. -/
def fullStore : List (Nat × String × Nat) :=
  (List.range 1000).map fun i => (i, ("translating", i))

/-- C1: For every sequence of `set_user_status` calls, whenever an
insert makes the store exceed the 1000-entry cap, exactly the
least-recently-set entry (the one whose last-set time is minimal — the
front of the order-maintained store) is evicted, and no more recently
set or overwritten entry is removed. Stated over the ghost-timestamped
store `setT`, which projects onto `set_user_status` exactly (first
conjunct); the second conjunct shows every `set_user_status` call
sequence from the empty store reaches only stores ordered by last-set
time; the third characterizes the eviction step; the fourth shows that
short of the cap (or on overwrite) nothing but the key's own old
binding is removed. -/
theorem C1_lru_eviction {α : Type} [DecidableEq α] :
    (∀ (s : List (α × String × Nat)) (uid : α) (status : String) (t : Nat),
      (setT s uid status t).map projEntry =
        set_user_status (s.map projEntry) uid status) ∧
    (∀ ops : List (α × String), InvT (runT ops) ops.length) ∧
    (∀ (s : List (α × String × Nat)) (uid : α) (status : String) (t : Nat),
      InvT s t → s.length = MAX_USERS → uid ∉ keysOf s →
      ∃ hd tl, s = hd :: tl ∧ (∀ e ∈ s, hd.2.2 ≤ e.2.2) ∧
        setT s uid status t = tl ++ [(uid, status, t)]) ∧
    (∀ (s : List (α × String × Nat)) (uid : α) (status : String) (t : Nat),
      InvT s t → (uid ∈ keysOf s ∨ s.length < MAX_USERS) →
      setT s uid status t =
        (s.filter fun e => decide (e.1 ≠ uid)) ++ [(uid, status, t)]) :=
  ⟨proj_setT, InvT_runT, setT_evicts, setT_no_evict⟩

/-- Witness for C1: inserting user 1000 into the full 1000-entry store
evicts exactly the front entry (user 0, the least recently set). -/
theorem C1_lru_eviction_witness :
    ∃ hd tl, fullStore = hd :: tl ∧ (∀ e ∈ fullStore, hd.2.2 ≤ e.2.2) ∧
      setT fullStore 1000 "translating" 1000 =
        tl ++ [(1000, "translating", 1000)] := by
  have hkeys : keysOf fullStore = List.range 1000 := by
    simp only [fullStore, keysOf, List.map_map]
    have hfun : (Prod.fst ∘ fun i : Nat => (i, ("translating", i))) = id := rfl
    rw [hfun, List.map_id]
  have hlen : fullStore.length = MAX_USERS := by
    simp [fullStore, MAX_USERS]
  have hInv : InvT fullStore 1000 := by
    refine ⟨?_, ?_, ?_, ?_⟩
    · rw [hkeys]
      exact List.nodup_range 1000
    · rw [hlen]
    · rw [fullStore, List.pairwise_map]
      exact List.pairwise_lt_range 1000
    · intro e he
      obtain ⟨i, hi, rfl⟩ := List.mem_map.mp he
      exact List.mem_range.mp hi
  have hnot : 1000 ∉ keysOf fullStore := by
    rw [hkeys]
    simp
  exact (C1_lru_eviction (α := Nat)).2.2.1 fullStore 1000 "translating" 1000
    hInv hlen hnot

/-- C7: After every operation on the user-status store — set, overwrite
or removal — the store holds at most one mode value per user identifier
(distinct keys; also expressed as: at most one stored entry per key)
and its size never exceeds the 1000-entry cap. -/
theorem C7_store_bounded {α : Type} [DecidableEq α]
    (s : List (α × String)) (uid : α) (status : String) (h : StoreInv s) :
    StoreInv (set_user_status s uid status) ∧ StoreInv (popKV s uid) ∧
    (∀ k, ((set_user_status s uid status).filter
      fun e => decide (e.1 = k)).length ≤ 1) ∧
    (∀ k, ((popKV s uid).filter fun e => decide (e.1 = k)).length ≤ 1) := by
  obtain ⟨hnodup, hlen⟩ := h
  have hset : StoreInv (set_user_status s uid status) :=
    ⟨nodup_keys_setKV s uid status hnodup, length_setKV_le s uid status hlen⟩
  have hpopnodup : (keysOf (popKV s uid)).Nodup :=
    hnodup.sublist ((List.filter_sublist s).map Prod.fst)
  have hpoplen : (popKV s uid).length ≤ MAX_USERS :=
    Nat.le_trans (List.filter_sublist s).length_le hlen
  exact ⟨hset, ⟨hpopnodup, hpoplen⟩,
    fun k => filter_key_length_le_one _ k hset.1,
    fun k => filter_key_length_le_one _ k hpopnodup⟩

/-- Witness for C7: overwriting user 0 and removing user 1 in a
two-user store keeps the invariant. -/
theorem C7_store_bounded_witness :
    StoreInv (set_user_status [(0, "translating"), (1, "translating")] 0 "translating") ∧
    StoreInv (popKV [(0, "translating"), (1, "translating")] (0 : Nat)) ∧
    (∀ k, ((set_user_status [(0, "translating"), (1, "translating")] 0
      "translating").filter fun e => decide (e.1 = k)).length ≤ 1) ∧
    (∀ k, ((popKV [(0, "translating"), (1, "translating")] (0 : Nat)).filter
      fun e => decide (e.1 = k)).length ≤ 1) :=
  C7_store_bounded [(0, "translating"), (1, "translating")] 0 "translating"
    ⟨by decide, by decide⟩

/-- C2: The text handler implements the two-state machine per user:
the activate command sets the user's mode to translating and replies
with the fixed activation acknowledgment; while translating, the
deactivate command removes the user's entry (returning them to Idle,
which is represented by absence from the store) and replies with the
fixed deactivation acknowledgment; while translating, any other input
leaves the mode translating (store untouched) and the reply comes from
the translation-prompt path (one upstream call). -/
theorem C2_state_machine {α : Type} [DecidableEq α]
    (gen : Nat → String → Except String String)
    (send : String → Except String Unit) (template : String)
    (s : List (α × String)) (uid : α) (text : String) (calls : Nat) :
    (pyStrip text = activateCmd →
      (handle_message gen send template s uid text calls).attempts.head? =
        some activateReply ∧
      getKV (handle_message gen send template s uid text calls).store uid =
        some "translating" ∧
      (handle_message gen send template s uid text calls).calls = calls) ∧
    (pyStrip text = deactivateCmd → getKV s uid = some "translating" →
      (handle_message gen send template s uid text calls).attempts.head? =
        some deactivateReply ∧
      getKV (handle_message gen send template s uid text calls).store uid =
        none ∧
      (handle_message gen send template s uid text calls).calls = calls) ∧
    (pyStrip text ≠ activateCmd → pyStrip text ≠ deactivateCmd →
      getKV s uid = some "translating" →
      (handle_message gen send template s uid text calls).store = s ∧
      getKV (handle_message gen send template s uid text calls).store uid =
        some "translating" ∧
      (handle_message gen send template s uid text calls).attempts.head? =
        some (handle_translation_mode gen template (pyStrip text) calls).1 ∧
      (handle_message gen send template s uid text calls).calls = calls + 1) := by
  obtain ⟨hst, hca, hat⟩ :=
    handle_message_parts gen send template s uid text calls
  refine ⟨?_, ?_, ?_⟩
  · intro hcmd
    rw [dispatch_activate gen template s uid _ calls hcmd] at hst hca hat
    refine ⟨hat, ?_, hca⟩
    rw [hst]
    exact getKV_setKV_self s uid "translating"
  · intro hcmd hmode
    rw [dispatch_deactivate_on gen template s uid _ calls hcmd hmode]
      at hst hca hat
    refine ⟨hat, ?_, hca⟩
    rw [hst]
    exact getKV_popKV_self s uid
  · intro h1 h2 hmode
    rw [dispatch_translating gen template s uid _ calls h1 h2 hmode]
      at hst hca hat
    refine ⟨hst, ?_, hat, ?_⟩
    · rw [hst]
      exact hmode
    · rw [hca, handle_translation_mode]
      exact GPT_response_calls gen template (translationPrompt (pyStrip text))
        calls

/-- Witness for C2: the activation scenario on an empty store, the
deactivation and translation scenarios on a store where user 0 is
translating. -/
theorem C2_state_machine_witness :
    ((handle_message (fun _ _ => Except.ok "X") (fun _ => Except.ok ()) ""
      ([] : List (Nat × String)) 0 "啟動翻譯小助理" 0).attempts.head? =
        some activateReply ∧
     getKV (handle_message (fun _ _ => Except.ok "X") (fun _ => Except.ok ())
       "" ([] : List (Nat × String)) 0 "啟動翻譯小助理" 0).store 0 =
        some "translating" ∧
     (handle_message (fun _ _ => Except.ok "X") (fun _ => Except.ok ()) ""
       ([] : List (Nat × String)) 0 "啟動翻譯小助理" 0).calls = 0) ∧
    ((handle_message (fun _ _ => Except.ok "X") (fun _ => Except.ok ()) ""
      [(0, "translating")] 0 "結束翻譯小助理" 0).attempts.head? =
        some deactivateReply ∧
     getKV (handle_message (fun _ _ => Except.ok "X") (fun _ => Except.ok ())
       "" [(0, "translating")] 0 "結束翻譯小助理" 0).store 0 = none ∧
     (handle_message (fun _ _ => Except.ok "X") (fun _ => Except.ok ()) ""
       [(0, "translating")] 0 "結束翻譯小助理" 0).calls = 0) ∧
    ((handle_message (fun _ _ => Except.ok "X") (fun _ => Except.ok ()) ""
      [(0, "translating")] 0 "hello" 0).store = [(0, "translating")] ∧
     getKV (handle_message (fun _ _ => Except.ok "X") (fun _ => Except.ok ())
       "" [(0, "translating")] 0 "hello" 0).store 0 = some "translating" ∧
     (handle_message (fun _ _ => Except.ok "X") (fun _ => Except.ok ()) ""
       [(0, "translating")] 0 "hello" 0).attempts.head? =
        some (handle_translation_mode (fun _ _ => Except.ok "X") ""
          (pyStrip "hello") 0).1 ∧
     (handle_message (fun _ _ => Except.ok "X") (fun _ => Except.ok ()) ""
       [(0, "translating")] 0 "hello" 0).calls = 0 + 1) :=
  ⟨(C2_state_machine (fun _ _ => Except.ok "X") (fun _ => Except.ok ()) ""
      ([] : List (Nat × String)) 0 "啟動翻譯小助理" 0).1 (by decide),
   (C2_state_machine (fun _ _ => Except.ok "X") (fun _ => Except.ok ()) ""
      [(0, "translating")] 0 "結束翻譯小助理" 0).2.1 (by decide) (by decide),
   (C2_state_machine (fun _ _ => Except.ok "X") (fun _ => Except.ok ()) ""
      [(0, "translating")] 0 "hello" 0).2.2 (by decide) (by decide) (by decide)⟩

/-- C9: For every user not currently in translating mode, the
deactivate command replies with the fixed "not in translation mode"
message, leaves the store unchanged, and performs no upstream call. -/
theorem C9_deactivate_while_idle {α : Type} [DecidableEq α]
    (gen : Nat → String → Except String String)
    (send : String → Except String Unit) (template : String)
    (s : List (α × String)) (uid : α) (text : String) (calls : Nat)
    (hmode : getKV s uid ≠ some "translating")
    (hcmd : pyStrip text = deactivateCmd) :
    (handle_message gen send template s uid text calls).store = s ∧
    (handle_message gen send template s uid text calls).attempts.head? =
      some notInModeReply ∧
    (handle_message gen send template s uid text calls).calls = calls := by
  obtain ⟨hst, hca, hat⟩ :=
    handle_message_parts gen send template s uid text calls
  rw [dispatch_deactivate_off gen template s uid _ calls hcmd hmode]
    at hst hca hat
  exact ⟨hst, hat, hca⟩

/-- Witness for C9: an unknown user sends the deactivate command. -/
theorem C9_deactivate_while_idle_witness :
    (handle_message (fun _ _ => Except.ok "X") (fun _ => Except.ok ()) ""
      ([] : List (Nat × String)) 0 "結束翻譯小助理" 0).store = [] ∧
    (handle_message (fun _ _ => Except.ok "X") (fun _ => Except.ok ()) ""
      ([] : List (Nat × String)) 0 "結束翻譯小助理" 0).attempts.head? =
      some notInModeReply ∧
    (handle_message (fun _ _ => Except.ok "X") (fun _ => Except.ok ()) ""
      ([] : List (Nat × String)) 0 "結束翻譯小助理" 0).calls = 0 :=
  C9_deactivate_while_idle (fun _ _ => Except.ok "X") (fun _ => Except.ok ())
    "" [] 0 "結束翻譯小助理" 0 (by decide) (by decide)

/-- C10: The handler strips the incoming text before command comparison
and prompt building: handling any raw text equals handling its stripped
form (so whitespace-surrounded commands are recognized — the last
conjunct shows a whitespace-padded activate command acts exactly like
the bare command), and the user text embedded in the composed prompt of
either generation path is the stripped text. -/
theorem C10_strips_input {α : Type} [DecidableEq α]
    (gen : Nat → String → Except String String)
    (send : String → Except String Unit) (template : String)
    (s : List (α × String)) (uid : α) (text : String) (calls : Nat) :
    (handle_message gen send template s uid text calls =
      handle_message gen send template s uid (pyStrip text) calls) ∧
    (pyStrip text ≠ activateCmd → pyStrip text ≠ deactivateCmd →
      getKV s uid = some "translating" →
      (handle_message gen send template s uid text calls).attempts.head? =
        some (GPT_response gen template
          (translationPrompt (pyStrip text)) calls).1) ∧
    (pyStrip text ≠ activateCmd → pyStrip text ≠ deactivateCmd →
      getKV s uid ≠ some "translating" →
      (handle_message gen send template s uid text calls).attempts.head? =
        some (GPT_response gen template
          (generalPrompt (pyStrip text)) calls).1) ∧
    (handle_message gen send template s uid (" \n" ++ activateCmd ++ " \t")
        calls =
      handle_message gen send template s uid activateCmd calls) := by
  obtain ⟨hst, hca, hat⟩ :=
    handle_message_parts gen send template s uid text calls
  refine ⟨?_, ?_, ?_, ?_⟩
  · simp only [handle_message, pyStrip_idem]
  · intro h1 h2 hmode
    rw [dispatch_translating gen template s uid _ calls h1 h2 hmode] at hat
    exact hat
  · intro h1 h2 hmode
    rw [dispatch_general gen template s uid _ calls h1 h2 hmode] at hat
    exact hat
  · have hp : pyStrip (" \n" ++ activateCmd ++ " \t") = pyStrip activateCmd :=
      by decide
    simp only [handle_message, hp]

/-- Witness for C10: stripped "hello" is embedded in the translation
prompt for a translating user and in the general prompt for an idle
user. -/
theorem C10_strips_input_witness :
    ((handle_message (fun _ _ => Except.ok "X") (fun _ => Except.ok ()) ""
      [(0, "translating")] 0 " hello " 0).attempts.head? =
        some (GPT_response (fun _ _ => Except.ok "X") ""
          (translationPrompt (pyStrip " hello ")) 0).1) ∧
    ((handle_message (fun _ _ => Except.ok "X") (fun _ => Except.ok ()) ""
      ([] : List (Nat × String)) 0 " hello " 0).attempts.head? =
        some (GPT_response (fun _ _ => Except.ok "X") ""
          (generalPrompt (pyStrip " hello ")) 0).1) :=
  ⟨(C10_strips_input (fun _ _ => Except.ok "X") (fun _ => Except.ok ()) ""
      [(0, "translating")] 0 " hello " 0).2.1 (by decide) (by decide)
      (by decide),
   (C10_strips_input (fun _ _ => Except.ok "X") (fun _ => Except.ok ()) ""
      ([] : List (Nat × String)) 0 " hello " 0).2.2.1 (by decide) (by decide)
      (by decide)⟩

/-- C3 counterexample: `GPT_response` has no cache. Two calls with the
identical input text "hello" (and identical upstream behaviour) perform
two upstream calls, refuting "invokes the compute function at most
once". -/
theorem C3_counterexample :
    (GPT_response (fun _ _ => Except.ok "X") "" "hello"
      ((GPT_response (fun _ _ => Except.ok "X") "" "hello" 0).2)).2 = 2 ∧
    ¬ (GPT_response (fun _ _ => Except.ok "X") "" "hello"
      ((GPT_response (fun _ _ => Except.ok "X") "" "hello" 0).2)).2 ≤ 1 := by
  exact ⟨rfl, by decide⟩

/-- C3 (amended): `app.py` has no response cache. Every call to
`GPT_response` performs exactly one upstream generation call, so two
calls with identical input text perform two upstream calls — the second
call's result comes from a fresh upstream invocation, not a cache. -/
theorem C3_every_call_hits_upstream
    (gen : Nat → String → Except String String) (template text : String)
    (calls : Nat) :
    (GPT_response gen template text calls).2 = calls + 1 ∧
    (GPT_response gen template text
      ((GPT_response gen template text calls).2)).2 = calls + 2 :=
  ⟨GPT_response_calls gen template text calls, by
    rw [GPT_response_calls gen template text
      ((GPT_response gen template text calls).2),
      GPT_response_calls gen template text calls]⟩

/-- C4: If the upstream generation call raises, `GPT_response` returns
the fixed fallback string as an ordinary value (nothing propagates to
the reply path) after exactly one upstream call — no retry. -/
theorem C4_fails_closed (gen : Nat → String → Except String String)
    (template text : String) (calls : Nat) (e : String)
    (h : gen calls (composePrompt template text) = Except.error e) :
    GPT_response gen template text calls = (fallbackText, calls + 1) := by
  unfold GPT_response
  rw [h]

/-- Witness for C4: an upstream that raises a quota error yields the
fallback text with one upstream call made. -/
theorem C4_fails_closed_witness :
    GPT_response (fun _ _ => Except.error "quota") "" "hello" 0 =
      (fallbackText, 1) :=
  C4_fails_closed (fun _ _ => Except.error "quota") "" "hello" 0 "quota" rfl

/-- C5 counterexample: with a valid signature, a `MemberJoinedEvent`
whose profile fetch raises makes `welcome` raise; `callback` catches
only `InvalidSignatureError`, so the exception escapes the route and
the platform does not see HTTP 200. -/
theorem C5_counterexample :
    callback true
      [welcome (Except.error "LineBotApiError") (fun _ => Except.ok ())] =
      CallbackResult.uncaught "LineBotApiError" ∧
    callback true
      [welcome (Except.error "LineBotApiError") (fun _ => Except.ok ())] ≠
      CallbackResult.response 200 "OK" := by
  exact ⟨rfl, by decide⟩

/-- C5 (amended): if signature verification fails, `/callback` responds
400 without running any event handler (the result does not depend on
the handlers at all); with a valid signature it returns HTTP 200 with
body `OK` provided no event handler raises; an exception raised by an
event handler propagates out of the route uncaught (Flask then reports
a server error, not 200). -/
theorem C5_callback_statuses (handlers : List (Except String Unit)) :
    (callback false handlers = CallbackResult.response 400 "" ∧
     ∀ handlers2, callback false handlers = callback false handlers2) ∧
    (runHandlers handlers = Except.ok () →
      callback true handlers = CallbackResult.response 200 "OK") ∧
    (∀ e, runHandlers handlers = Except.error e →
      callback true handlers = CallbackResult.uncaught e) := by
  refine ⟨⟨rfl, fun handlers2 => rfl⟩, ?_, ?_⟩
  · intro h
    simp [callback, handler_handle, h]
  · intro e h
    simp [callback, handler_handle, h]

/-- Witness for C5: an empty event list under a valid signature yields
HTTP 200 `OK`. -/
theorem C5_callback_statuses_witness :
    callback true [] = CallbackResult.response 200 "OK" :=
  (C5_callback_statuses []).2.1 rfl

/-- C6 counterexample: when LINE reply delivery fails (network down),
the `except` block's own `reply_message` call fails too, and
`handle_message` raises — the handler does not "never raise". -/
theorem C6_counterexample :
    (handle_message (fun _ _ => Except.ok "X") (fun _ => Except.error "netdown")
      "" ([] : List (Nat × String)) 0 "hello" 0).raised = some "netdown" ∧
    (handle_message (fun _ _ => Except.ok "X") (fun _ => Except.error "netdown")
      "" ([] : List (Nat × String)) 0 "hello" 0).raised ≠ none := by
  exact ⟨rfl, by decide⟩

/-- C6 (amended): any exception raised in the message-handling body
(in `app.py` only the first `reply_message` delivery can raise there)
is caught at the top of the handler; the trace is then logged and the
fixed generic fallback reply is attempted; the handler raises only if
delivering the fallback reply itself raises. Either the body succeeded
(nothing logged, one delivery of the dispatched reply), or the failure
was logged, the fallback was attempted, and an exception escapes only
when the fallback delivery itself failed. -/
theorem C6_catch_all (gen : Nat → String → Except String String)
    (send : String → Except String Unit) (template : String)
    {α : Type} [DecidableEq α] (s : List (α × String)) (uid : α)
    (text : String) (calls : Nat) :
    ((handle_message gen send template s uid text calls).raised = none ∧
     (handle_message gen send template s uid text calls).logged = false ∧
     (handle_message gen send template s uid text calls).attempts =
       [(dispatch gen template s uid (pyStrip text) calls).1]) ∨
    ((handle_message gen send template s uid text calls).logged = true ∧
     (handle_message gen send template s uid text calls).attempts =
       [(dispatch gen template s uid (pyStrip text) calls).1,
        genericErrorReply] ∧
     ((handle_message gen send template s uid text calls).raised = none ∨
      ∃ e, send genericErrorReply = Except.error e ∧
        (handle_message gen send template s uid text calls).raised = some e)) := by
  simp only [handle_message]
  cases send (dispatch gen template s uid (pyStrip text) calls).1 with
  | ok u => simp
  | error e =>
    cases hsend2 : send genericErrorReply with
    | ok u => simp
    | error e2 =>
      right
      exact ⟨rfl, rfl, Or.inr ⟨e2, rfl, rfl⟩⟩

/-- C8: If reading `prompt_config.md` fails, the template is the empty
string; the (possibly empty) template is prepended to every composed
prompt sent to the generation provider; and with a failed read
`GPT_response` behaves exactly as with the empty template — no error
surfaces to the user. -/
theorem C8_template_read_failure (e : String) :
    loadPromptTemplate (Except.error e) = "" ∧
    (∀ template text, ∃ rest,
      composePrompt template text = template ++ rest) ∧
    (∀ gen text calls,
      GPT_response gen (loadPromptTemplate (Except.error e)) text calls =
        GPT_response gen "" text calls) := by
  refine ⟨rfl, ?_, fun gen text calls => rfl⟩
  intro template text
  refine ⟨"\n\n" ++ pyStrip text, ?_⟩
  unfold composePrompt
  rw [String.append_assoc]

end LinebotApp
